import Mathlib

/-
Shallow embedding of the ChatGPT → KoboldAI-horde proxy (src/main.go).

The Go program is a protocol-translation gateway: two HTTP handlers decode an
OpenAI-shaped request, convert it to a KoboldAI horde job spec, submit the job,
poll the status endpoint until the job reports done, and convert the final
status back to an OpenAI-shaped response.

Embedding conventions:
  - Go structs become Lean structures with the same field names.
  - Go `int` becomes `Int`; Go `len(s)` on a string becomes `String.utf8ByteSize`
    (Go string length is its byte length).
  - The effectful parts (HTTP, time, uuid) are abstracted: the downstream
    world is a value listing the outcome of the submit POST and the outcome of
    each successive status GET; uuid and the clock become explicit parameters.
  - A Go panic (out-of-range slice index) is modelled as `none`.
-/

namespace ChatGPTKoboldProxy

structure openAIChatMessage where
  Role : String
  Content : String
deriving DecidableEq

structure openAIChatRequest where
  Model : String
  Messages : List openAIChatMessage
deriving DecidableEq

structure openAICompletionRequest where
  Model : String
  Prompt : String
  MaxTokens : Int
  Temperature : Float
  TopP : Float
  N : Int
  Stream : Bool
  Logprobs : Option Int
  Stop : List String

structure generation where
  WorkerID : String
  WorkerName : String
  Model : String
  State : String
  Text : String
  Seed : Int
deriving DecidableEq

structure openAIUsage where
  PromptTokens : Int
  CompletionTokens : Int
  TotalTokens : Int
deriving DecidableEq

structure openAIChatChoice where
  Index : Int
  Message : openAIChatMessage
  FinishReason : String
deriving DecidableEq

structure openAIChatResponse where
  ID : String
  Object : String
  Created : Int
  Choices : List openAIChatChoice
  Usage : openAIUsage
deriving DecidableEq

structure openAICompletionChoice where
  Text : String
  Index : Int
  Logprobs : Option Unit
  FinishReason : String
deriving DecidableEq

structure openAICompletionResponse where
  ID : String
  Object : String
  Created : Int
  Model : String
  Choices : List openAICompletionChoice
  Usage : openAIUsage
deriving DecidableEq

structure params where
  MaxContextLength : Int
  MaxLength : Int
deriving DecidableEq

structure koboldAIRequest where
  Prompt : String
  Models : List String
  TrustedWorkers : Bool
  Params : params
deriving DecidableEq

/-- Go struct koboldAIPollResponse; Kudos is a float32 in the source, kept
as an (inert) `Float` here — the program never computes with it. -/
structure koboldAIPollResponse where
  Finished : Int
  Processing : Int
  Restarted : Int
  Waiting : Int
  Done : Bool
  Faulted : Bool
  WaitTime : Int
  QueuePosition : Int
  Kudos : Float
  IsPossible : Bool
  Generations : List generation

structure koboldAIAsyncResponse where
  ID : String
  Message : String
deriving DecidableEq

def koboldAPIURL : String := "https://horde.koboldai.net/api/v2/generate/text/async"

def koboldStatusURL : String := "https://horde.koboldai.net/api/v2/generate/text/status/"

def defaultAPIKey : String := "0000000000"

/-- Go source, lines 188-203: build the prompt by looping over the messages
with `prompt += message.Role + ": " + message.Content + "\n"`, then return the
job spec with the singleton models list, trusted_workers false, and the fixed
params 1024 / 100. -/
def convertOpenAIChatRequestToKobold (chatReq : openAIChatRequest) : koboldAIRequest :=
  let prompt := chatReq.Messages.foldl
    (fun acc message => acc ++ message.Role ++ ": " ++ message.Content ++ "\n") ""
  { Prompt := prompt
    Models := [chatReq.Model]
    TrustedWorkers := false
    Params := { MaxContextLength := 1024, MaxLength := 100 } }

/-- Go source, lines 205-215: prompt passed through, singleton models list,
trusted_workers false, params 1024 / MaxTokens. -/
def convertOpenAICompletionRequestToKobold
    (completionReq : openAICompletionRequest) : koboldAIRequest :=
  { Prompt := completionReq.Prompt
    Models := [completionReq.Model]
    TrustedWorkers := false
    Params := { MaxContextLength := 1024, MaxLength := completionReq.MaxTokens } }

/-- Go source, lines 300-325. The uuid and the clock are explicit parameters
`id` and `created`. The source indexes `koboldResp.Generations[0]`
unconditionally; on an empty slice Go panics, modelled here as `none`.
Go `len` on the generation text is its byte length, `String.utf8ByteSize`. -/
def convertKoboldResponseToOpenAIChatResponse (koboldResp : koboldAIPollResponse)
    (id : String) (created : Int) : Option openAIChatResponse :=
  match koboldResp.Generations with
  | [] => none
  | g :: _ =>
    let responseText := g.Text
    let assistantMessage : openAIChatMessage := { Role := "assistant", Content := responseText }
    some
      { ID := id
        Object := "chat.completion"
        Created := created
        Choices := [{ Index := 0, Message := assistantMessage, FinishReason := "stop" }]
        Usage :=
          { PromptTokens := (g.Text.utf8ByteSize : Int)
            CompletionTokens := (responseText.utf8ByteSize : Int)
            TotalTokens := (g.Text.utf8ByteSize : Int) + (responseText.utf8ByteSize : Int) } }

/-- Go source, lines 327-350. Same conventions as the chat conversion: the
unconditional `Generations[0]` index is `none` on the empty list (a Go panic),
uuid and clock are the parameters `id` and `created`. -/
def convertKoboldResponseToOpenAICompletionResponse (koboldResp : koboldAIPollResponse)
    (id : String) (created : Int) : Option openAICompletionResponse :=
  match koboldResp.Generations with
  | [] => none
  | g :: _ =>
    let responseText := g.Text
    some
      { ID := id
        Object := "text.completion"
        Created := created
        Choices := [{ Text := responseText, Index := 0, Logprobs := none, FinishReason := "stop" }]
        Model := "davinci-codex"
        Usage := { PromptTokens := 0, CompletionTokens := 0, TotalTokens := 0 } }

/-- The spec's description of the chat prompt: the concatenation of
`"<role>: <content>\n"` for each message, in input order. -/
def specChatPrompt : List openAIChatMessage → String
  | [] => ""
  | m :: rest => m.Role ++ ": " ++ m.Content ++ "\n" ++ specChatPrompt rest

theorem foldl_prompt_eq (msgs : List openAIChatMessage) (acc : String) :
    msgs.foldl (fun acc message => acc ++ message.Role ++ ": " ++ message.Content ++ "\n") acc
      = acc ++ specChatPrompt msgs := by
  induction msgs generalizing acc with
  | nil => simp [specChatPrompt]
  | cons m rest ih =>
    rw [List.foldl_cons, ih]
    simp [specChatPrompt, String.append_assoc]

/-- C3: every inbound chat request (empty message list included) maps, without
error, to the job spec whose prompt is the in-order concatenation of
`"<role>: <content>\n"` per message, models the singleton of the requested
model, trusted_workers false, max_context_length 1024 and max_length 100. -/
theorem convertOpenAIChatRequestToKobold_spec (chatReq : openAIChatRequest) :
    convertOpenAIChatRequestToKobold chatReq =
      { Prompt := specChatPrompt chatReq.Messages
        Models := [chatReq.Model]
        TrustedWorkers := false
        Params := { MaxContextLength := 1024, MaxLength := 100 } } := by
  simp [convertOpenAIChatRequestToKobold, foldl_prompt_eq]

/-- C4: every inbound completion request maps to the job spec with the prompt
passed through verbatim, the singleton models list, trusted_workers false,
max_context_length 1024 and max_length taken from max_tokens; hence two
requests differing only in temperature, top_p, n, stream, logprobs or stop map
to equal job specs. -/
theorem convertOpenAICompletionRequestToKobold_spec :
    (∀ completionReq : openAICompletionRequest,
      convertOpenAICompletionRequestToKobold completionReq =
        { Prompt := completionReq.Prompt
          Models := [completionReq.Model]
          TrustedWorkers := false
          Params := { MaxContextLength := 1024, MaxLength := completionReq.MaxTokens } }) ∧
    (∀ r1 r2 : openAICompletionRequest,
      r1.Model = r2.Model → r1.Prompt = r2.Prompt → r1.MaxTokens = r2.MaxTokens →
      convertOpenAICompletionRequestToKobold r1 = convertOpenAICompletionRequestToKobold r2) := by
  refine ⟨fun completionReq => rfl, fun r1 r2 h1 h2 h3 => ?_⟩
  simp [convertOpenAICompletionRequestToKobold, h1, h2, h3]

/-- Error taxonomy of the downstream client, named after the spec's error
classes. In the Go source the raw `error` value is returned; the constructor
records the phase the error arose in and carries the error's message. -/
inductive koboldError where
  | SubmitError (msg : String)
  | PollError (msg : String)
deriving DecidableEq

def koboldError.message : koboldError → String
  | .SubmitError m => m
  | .PollError m => m

/-- The outcome of one status GET against the downstream service: the
transport fails, the body fails to decode, or a status record is decoded. -/
inductive pollOutcome where
  | transportError (msg : String)
  | decodeError (msg : String)
  | status (r : koboldAIPollResponse)

/-- Go source, lines 270-298. Each list element is the outcome of one
sleep-then-GET iteration, in order. The result pairs the number of GETs the
loop issued with the value the Go function returns; `none` means the supplied
trace ran out before the loop returned (it is still polling). Transport and
decode failures abort immediately with an error; a decoded status returns it
when `done` is true and otherwise loops — the `faulted` flag is never
inspected. -/
def pollKoboldAPI : List pollOutcome → Option (Nat × Except koboldError koboldAIPollResponse)
  | [] => none
  | pollOutcome.transportError m :: _ => some (1, Except.error (koboldError.PollError m))
  | pollOutcome.decodeError m :: _ => some (1, Except.error (koboldError.PollError m))
  | pollOutcome.status r :: rest =>
    if r.Done then some (1, Except.ok r)
    else (pollKoboldAPI rest).map fun p => (p.1 + 1, p.2)

/-- The outcome of the submit POST: the transport fails, the response body
fails to decode, or an async response (job id) is decoded. -/
inductive submitOutcome where
  | transportError (msg : String)
  | decodeError (msg : String)
  | accepted (r : koboldAIAsyncResponse)

/-- One request's view of the downstream service: the submit POST's outcome
followed by the outcomes of the successive status GETs. -/
structure hordeWorld where
  submit : submitOutcome
  polls : List pollOutcome

/-- What a call to callKoboldAPI did: how many submit POSTs and status GETs it
issued (attempts included), and the value it returned. -/
structure callResult where
  submitPOSTs : Nat
  statusGETs : Nat
  result : Except koboldError koboldAIPollResponse

/-- Go source, lines 217-268. Marshalling the request and building the POST
cannot fail for the values of this embedding, so the function always issues
the submit POST; a transport or decode failure there returns the error with no
status GET ever issued, and otherwise the extracted job id is polled. `none`
propagates a poll trace that ran out (the loop still running). -/
def callKoboldAPI (koboldReq : koboldAIRequest) (apiKey : String) (w : hordeWorld) :
    Option callResult :=
  match w.submit with
  | submitOutcome.transportError m =>
    some { submitPOSTs := 1, statusGETs := 0, result := Except.error (koboldError.SubmitError m) }
  | submitOutcome.decodeError m =>
    some { submitPOSTs := 1, statusGETs := 0, result := Except.error (koboldError.SubmitError m) }
  | submitOutcome.accepted _ =>
    (pollKoboldAPI w.polls).map fun p =>
      { submitPOSTs := 1, statusGETs := p.1, result := p.2 }

/-- C2: the poll loop returns successfully exactly at the first status whose
done flag is true. First conjunct: after any run of decoded not-done statuses,
a done status returns with exactly one GET per consumed status and nothing
consumed beyond it. Second conjunct: a not-done status — its faulted flag
notwithstanding — just continues the loop on the rest of the trace. Third
conjunct: a single faulted-but-not-done status leaves the loop still polling. -/
theorem pollKoboldAPI_first_done :
    (∀ (pre : List pollOutcome) (r : koboldAIPollResponse) (rest : List pollOutcome),
      (∀ x ∈ pre, ∃ s, x = pollOutcome.status s ∧ s.Done = false) → r.Done = true →
      pollKoboldAPI (pre ++ pollOutcome.status r :: rest)
        = some (pre.length + 1, Except.ok r)) ∧
    (∀ (r : koboldAIPollResponse) (rest : List pollOutcome), r.Done = false →
      pollKoboldAPI (pollOutcome.status r :: rest)
        = (pollKoboldAPI rest).map fun p => (p.1 + 1, p.2)) ∧
    (∀ r : koboldAIPollResponse, r.Done = false → r.Faulted = true →
      pollKoboldAPI [pollOutcome.status r] = none) := by
  refine ⟨?_, ?_, ?_⟩
  · intro pre
    induction pre with
    | nil =>
      intro r rest _ hr
      simp [pollKoboldAPI, hr]
    | cons x pre ih =>
      intro r rest hpre hr
      obtain ⟨s, hx, hs⟩ := hpre x (List.mem_cons_self x pre)
      subst hx
      rw [List.cons_append]
      simp only [pollKoboldAPI, hs, if_neg]
      rw [ih r rest (fun y hy => hpre y (List.mem_cons_of_mem _ hy)) hr]
      simp [Nat.add_comm, Nat.add_assoc]
  · intro r rest hr
    simp [pollKoboldAPI, hr]
  · intro r hr _
    simp [pollKoboldAPI, hr]

/-- A decoded status with done=false and faulted=true, used to exercise the
poll loop on a faulted-but-unfinished job. -/
def faultedStatus : koboldAIPollResponse :=
  { Finished := 0, Processing := 0, Restarted := 0, Waiting := 1, Done := false, Faulted := true,
    WaitTime := 10, QueuePosition := 1, Kudos := 0, IsPossible := true, Generations := [] }

/-- A single `"hello"` generation, as in the spec's worked example. -/
def helloGeneration : generation :=
  { WorkerID := "w1", WorkerName := "worker-one", Model := "m", State := "ok",
    Text := "hello", Seed := 7 }

/-- A completed (done=true) status carrying exactly the `"hello"` generation. -/
def helloStatus : koboldAIPollResponse :=
  { Finished := 1, Processing := 0, Restarted := 0, Waiting := 0, Done := true, Faulted := false,
    WaitTime := 0, QueuePosition := 0, Kudos := 1, IsPossible := true,
    Generations := [helloGeneration] }

theorem pollKoboldAPI_first_done_witness :
    faultedStatus.Done = false ∧ faultedStatus.Faulted = true ∧ helloStatus.Done = true ∧
    pollKoboldAPI [pollOutcome.status faultedStatus, pollOutcome.status helloStatus]
      = some (2, Except.ok helloStatus) ∧
    pollKoboldAPI [pollOutcome.status faultedStatus] = none :=
  ⟨rfl, rfl, rfl,
    pollKoboldAPI_first_done.1 [pollOutcome.status faultedStatus] helloStatus []
      (fun x hx => by
        rw [List.mem_singleton] at hx
        exact ⟨faultedStatus, hx, rfl⟩)
      rfl,
    pollKoboldAPI_first_done.2.2 faultedStatus rfl rfl⟩

/-- C8: a submit-phase transport failure returns a SubmitError at once: the
one failed POST is the only downstream call, zero status GETs are issued and
the poll loop is never entered, whatever the poll trace would have held. -/
theorem callKoboldAPI_submit_failure_no_poll (koboldReq : koboldAIRequest) (apiKey m : String)
    (polls : List pollOutcome) :
    callKoboldAPI koboldReq apiKey { submit := submitOutcome.transportError m, polls := polls }
      = some { submitPOSTs := 1, statusGETs := 0,
               result := Except.error (koboldError.SubmitError m) } := rfl

def completionReqA : openAICompletionRequest :=
  { Model := "m", Prompt := "Hi", MaxTokens := 50, Temperature := 0.2, TopP := 0.9,
    N := 1, Stream := false, Logprobs := none, Stop := [] }

def completionReqB : openAICompletionRequest :=
  { Model := "m", Prompt := "Hi", MaxTokens := 50, Temperature := 1.7, TopP := 0.1,
    N := 4, Stream := true, Logprobs := some 3, Stop := ["###"] }

theorem convertOpenAICompletionRequestToKobold_spec_witness :
    completionReqA.Model = completionReqB.Model ∧
    completionReqA.Prompt = completionReqB.Prompt ∧
    completionReqA.MaxTokens = completionReqB.MaxTokens ∧
    convertOpenAICompletionRequestToKobold completionReqA
      = convertOpenAICompletionRequestToKobold completionReqB :=
  ⟨rfl, rfl, rfl,
    convertOpenAICompletionRequestToKobold_spec.2 completionReqA completionReqB rfl rfl rfl⟩

theorem convertChat_cons (koboldResp : koboldAIPollResponse) (g : generation)
    (rest : List generation) (h : koboldResp.Generations = g :: rest) (id : String)
    (created : Int) :
    convertKoboldResponseToOpenAIChatResponse koboldResp id created =
      some
        { ID := id
          Object := "chat.completion"
          Created := created
          Choices := [{ Index := 0
                        Message := { Role := "assistant", Content := g.Text }
                        FinishReason := "stop" }]
          Usage :=
            { PromptTokens := (g.Text.utf8ByteSize : Int)
              CompletionTokens := (g.Text.utf8ByteSize : Int)
              TotalTokens := (g.Text.utf8ByteSize : Int) + (g.Text.utf8ByteSize : Int) } } := by
  unfold convertKoboldResponseToOpenAIChatResponse
  rw [h]

theorem convertCompletion_cons (koboldResp : koboldAIPollResponse) (g : generation)
    (rest : List generation) (h : koboldResp.Generations = g :: rest) (id : String)
    (created : Int) :
    convertKoboldResponseToOpenAICompletionResponse koboldResp id created =
      some
        { ID := id
          Object := "text.completion"
          Created := created
          Choices := [{ Text := g.Text, Index := 0, Logprobs := none, FinishReason := "stop" }]
          Model := "davinci-codex"
          Usage := { PromptTokens := 0, CompletionTokens := 0, TotalTokens := 0 } } := by
  unfold convertKoboldResponseToOpenAICompletionResponse
  rw [h]

/-- A completed (done=true) status whose generations list is empty. -/
def emptyDoneStatus : koboldAIPollResponse :=
  { Finished := 1, Processing := 0, Restarted := 0, Waiting := 0, Done := true, Faulted := false,
    WaitTime := 0, QueuePosition := 0, Kudos := 0, IsPossible := true, Generations := [] }

/-- C1: on a completed status with zero generations both conversions take the
panic branch of the embedding (the Go source indexes Generations[0]
unconditionally and crashes), not a typed EmptyResultError branch — no such
branch exists in the source. -/
theorem convert_empty_generations_panics :
    convertKoboldResponseToOpenAIChatResponse emptyDoneStatus defaultAPIKey 0 = none ∧
    convertKoboldResponseToOpenAICompletionResponse emptyDoneStatus defaultAPIKey 0 = none :=
  ⟨rfl, rfl⟩

/-- C5: on a completed status with at least one generation the Job→Completion
conversion yields object `"text.completion"`, the hardcoded model
`"davinci-codex"`, the single choice carrying the first generation's text at
index 0 with no log-probabilities and finish reason `"stop"`, and an all-zero
usage record; id and created pass through unconstrained. -/
theorem convertKoboldResponseToOpenAICompletionResponse_spec
    (koboldResp : koboldAIPollResponse) (g : generation) (rest : List generation)
    (h : koboldResp.Generations = g :: rest) (id : String) (created : Int) :
    convertKoboldResponseToOpenAICompletionResponse koboldResp id created =
      some
        { ID := id
          Object := "text.completion"
          Created := created
          Choices := [{ Text := g.Text, Index := 0, Logprobs := none, FinishReason := "stop" }]
          Model := "davinci-codex"
          Usage := { PromptTokens := 0, CompletionTokens := 0, TotalTokens := 0 } } :=
  convertCompletion_cons koboldResp g rest h id created

theorem convertKoboldResponseToOpenAICompletionResponse_spec_witness :
    helloStatus.Generations = helloGeneration :: [] ∧
    convertKoboldResponseToOpenAICompletionResponse helloStatus defaultAPIKey 0 =
      some
        { ID := defaultAPIKey
          Object := "text.completion"
          Created := 0
          Choices := [{ Text := "hello", Index := 0, Logprobs := none, FinishReason := "stop" }]
          Model := "davinci-codex"
          Usage := { PromptTokens := 0, CompletionTokens := 0, TotalTokens := 0 } } :=
  ⟨rfl,
    convertKoboldResponseToOpenAICompletionResponse_spec helloStatus helloGeneration [] rfl
      defaultAPIKey 0⟩

/-- C6: on a completed status with at least one generation the Job→Chat
conversion yields object `"chat.completion"` and one choice at index 0 whose
message has role `"assistant"` and content the first generation's text, finish
reason `"stop"`, and usage counters computed from the byte length of that text:
prompt and completion tokens both equal to it, total tokens twice it. -/
theorem convertKoboldResponseToOpenAIChatResponse_spec
    (koboldResp : koboldAIPollResponse) (g : generation) (rest : List generation)
    (h : koboldResp.Generations = g :: rest) (id : String) (created : Int) :
    convertKoboldResponseToOpenAIChatResponse koboldResp id created =
      some
        { ID := id
          Object := "chat.completion"
          Created := created
          Choices := [{ Index := 0
                        Message := { Role := "assistant", Content := g.Text }
                        FinishReason := "stop" }]
          Usage :=
            { PromptTokens := (g.Text.utf8ByteSize : Int)
              CompletionTokens := (g.Text.utf8ByteSize : Int)
              TotalTokens := 2 * (g.Text.utf8ByteSize : Int) } } := by
  rw [two_mul]
  exact convertChat_cons koboldResp g rest h id created

theorem convertKoboldResponseToOpenAIChatResponse_spec_witness :
    helloStatus.Generations = helloGeneration :: [] ∧
    convertKoboldResponseToOpenAIChatResponse helloStatus defaultAPIKey 0 =
      some
        { ID := defaultAPIKey
          Object := "chat.completion"
          Created := 0
          Choices := [{ Index := 0
                        Message := { Role := "assistant", Content := "hello" }
                        FinishReason := "stop" }]
          Usage := { PromptTokens := 5, CompletionTokens := 5, TotalTokens := 10 } } :=
  ⟨rfl,
    convertKoboldResponseToOpenAIChatResponse_spec helloStatus helloGeneration [] rfl
      defaultAPIKey 0⟩

/-- C7: two completed statuses with equal first generation records convert to
equal Job→Chat and Job→Completion outputs once the id and timestamp inputs
agree — the outputs are independent of the content and number of generations
after the first. -/
theorem convert_uses_first_generation_only
    (r1 r2 : koboldAIPollResponse) (g : generation)
    (h1 : r1.Generations.head? = some g) (h2 : r2.Generations.head? = some g)
    (id : String) (created : Int) :
    convertKoboldResponseToOpenAIChatResponse r1 id created
      = convertKoboldResponseToOpenAIChatResponse r2 id created ∧
    convertKoboldResponseToOpenAICompletionResponse r1 id created
      = convertKoboldResponseToOpenAICompletionResponse r2 id created := by
  obtain ⟨t1, ht1⟩ : ∃ t, r1.Generations = g :: t := by
    cases hg : r1.Generations with
    | nil => rw [hg] at h1; exact absurd h1 (by simp)
    | cons a t =>
      rw [hg, List.head?_cons, Option.some_inj] at h1
      exact ⟨t, by rw [h1]⟩
  obtain ⟨t2, ht2⟩ : ∃ t, r2.Generations = g :: t := by
    cases hg : r2.Generations with
    | nil => rw [hg] at h2; exact absurd h2 (by simp)
    | cons a t =>
      rw [hg, List.head?_cons, Option.some_inj] at h2
      exact ⟨t, by rw [h2]⟩
  constructor
  · rw [convertChat_cons r1 g t1 ht1 id created, convertChat_cons r2 g t2 ht2 id created]
  · rw [convertCompletion_cons r1 g t1 ht1 id created,
      convertCompletion_cons r2 g t2 ht2 id created]

/-- A second, different generation record. -/
def otherGeneration : generation :=
  { WorkerID := "w2", WorkerName := "worker-two", Model := "m2", State := "ok",
    Text := "something else entirely", Seed := 11 }

/-- A completed status with two generations whose first equals helloStatus's. -/
def helloStatusTwoGens : koboldAIPollResponse :=
  { Finished := 2, Processing := 0, Restarted := 0, Waiting := 0, Done := true, Faulted := false,
    WaitTime := 0, QueuePosition := 0, Kudos := 2, IsPossible := true,
    Generations := [helloGeneration, otherGeneration] }

theorem convert_uses_first_generation_only_witness :
    helloStatus.Generations.head? = some helloGeneration ∧
    helloStatusTwoGens.Generations.head? = some helloGeneration ∧
    (convertKoboldResponseToOpenAIChatResponse helloStatus defaultAPIKey 0
        = convertKoboldResponseToOpenAIChatResponse helloStatusTwoGens defaultAPIKey 0 ∧
      convertKoboldResponseToOpenAICompletionResponse helloStatus defaultAPIKey 0
        = convertKoboldResponseToOpenAICompletionResponse helloStatusTwoGens defaultAPIKey 0) :=
  ⟨rfl, rfl,
    convert_uses_first_generation_only helloStatus helloStatusTwoGens helloGeneration rfl rfl
      defaultAPIKey 0⟩

/-- What the handler wrote as the response body: the plain-text error message
passed to http.Error, or the JSON encoding of one of the response entities. -/
inductive httpBody where
  | text (s : String)
  | jsonChat (r : openAIChatResponse)
  | jsonCompletion (r : openAICompletionResponse)
deriving DecidableEq

/-- Content-Type set by Go's http.Error on every error response it writes. -/
def plainTextContentType : String := "text/plain; charset=utf-8"

def jsonContentType : String := "application/json"

/-- Observable outcome of one handler invocation: the HTTP status and body
written, the Content-Type header set (if any), and how many downstream submit
POSTs and status GETs were issued while handling the request. -/
structure handlerResult where
  status : Nat
  body : httpBody
  contentType : Option String
  submitPOSTs : Nat
  statusGETs : Nat
deriving DecidableEq

/-- Go source, lines 130-135 and 161-166: an absent Authorization header means
the placeholder key; otherwise a `Bearer ` prefix is stripped when present
(strings.TrimPrefix). -/
def resolveAPIKey (authHeader : String) : String :=
  if authHeader = "" then defaultAPIKey
  else if authHeader.take 7 = "Bearer " then authHeader.drop 7 else authHeader

/-- Go source, lines 129-158. The decoded body is a parameter (`Except` holds
the decode error's message); a decode failure writes 400 with that message and
returns before any downstream call. Otherwise the request is converted,
callKoboldAPI runs against the downstream world, an error writes 500 with the
error's message, and on success the converted chat response is written with
Content-Type application/json. `none` propagates a non-returning poll loop or
the conversion's panic. -/
def chatCompletionHandler (authHeader : String) (body : Except String openAIChatRequest)
    (w : hordeWorld) (id : String) (created : Int) : Option handlerResult :=
  match body with
  | Except.error e =>
    some { status := 400, body := httpBody.text e, contentType := some plainTextContentType,
           submitPOSTs := 0, statusGETs := 0 }
  | Except.ok chatReq =>
    match callKoboldAPI (convertOpenAIChatRequestToKobold chatReq) (resolveAPIKey authHeader) w with
    | none => none
    | some res =>
      match res.result with
      | Except.error err =>
        some { status := 500, body := httpBody.text err.message,
               contentType := some plainTextContentType,
               submitPOSTs := res.submitPOSTs, statusGETs := res.statusGETs }
      | Except.ok koboldResp =>
        match convertKoboldResponseToOpenAIChatResponse koboldResp id created with
        | none => none
        | some chatResp =>
          some { status := 200, body := httpBody.jsonChat chatResp,
                 contentType := some jsonContentType,
                 submitPOSTs := res.submitPOSTs, statusGETs := res.statusGETs }

/-- Go source, lines 160-186. Same shape as the chat handler, except that on
success the Content-Type header line is commented out in the source, so no
Content-Type is set on the JSON body. -/
def completionHandler (authHeader : String) (body : Except String openAICompletionRequest)
    (w : hordeWorld) (id : String) (created : Int) : Option handlerResult :=
  match body with
  | Except.error e =>
    some { status := 400, body := httpBody.text e, contentType := some plainTextContentType,
           submitPOSTs := 0, statusGETs := 0 }
  | Except.ok completionReq =>
    match callKoboldAPI (convertOpenAICompletionRequestToKobold completionReq)
        (resolveAPIKey authHeader) w with
    | none => none
    | some res =>
      match res.result with
      | Except.error err =>
        some { status := 500, body := httpBody.text err.message,
               contentType := some plainTextContentType,
               submitPOSTs := res.submitPOSTs, statusGETs := res.statusGETs }
      | Except.ok koboldResp =>
        match convertKoboldResponseToOpenAICompletionResponse koboldResp id created with
        | none => none
        | some completionResp =>
          some { status := 200, body := httpBody.jsonCompletion completionResp,
                 contentType := none,
                 submitPOSTs := res.submitPOSTs, statusGETs := res.statusGETs }

/-- C9: on either endpoint a body that fails to decode yields HTTP 400 whose
body is exactly the decode error message, with zero submit POSTs and zero
status GETs — no downstream call at all. -/
theorem handlers_decode_error_400 (authHeader e : String) (w : hordeWorld) (id : String)
    (created : Int) :
    chatCompletionHandler authHeader (Except.error e) w id created =
      some { status := 400, body := httpBody.text e, contentType := some plainTextContentType,
             submitPOSTs := 0, statusGETs := 0 } ∧
    completionHandler authHeader (Except.error e) w id created =
      some { status := 400, body := httpBody.text e, contentType := some plainTextContentType,
             submitPOSTs := 0, statusGETs := 0 } :=
  ⟨rfl, rfl⟩

/-- C10: on every successful (status-200) request the chat handler has set the
Content-Type header to application/json, while the completion handler has set
no Content-Type header at all. -/
theorem handlers_content_type_asymmetry :
    (∀ (authHeader : String) (body : Except String openAIChatRequest) (w : hordeWorld)
      (id : String) (created : Int) (res : handlerResult),
      chatCompletionHandler authHeader body w id created = some res → res.status = 200 →
      res.contentType = some jsonContentType) ∧
    (∀ (authHeader : String) (body : Except String openAICompletionRequest) (w : hordeWorld)
      (id : String) (created : Int) (res : handlerResult),
      completionHandler authHeader body w id created = some res → res.status = 200 →
      res.contentType = none) := by
  constructor
  · intro authHeader body w id created res h hs
    unfold chatCompletionHandler at h
    split at h
    · rw [Option.some_inj] at h
      subst h
      simp at hs
    · split at h
      · exact absurd h (by simp)
      · split at h
        · rw [Option.some_inj] at h
          subst h
          simp at hs
        · split at h
          · exact absurd h (by simp)
          · rw [Option.some_inj] at h
            subst h
            rfl
  · intro authHeader body w id created res h hs
    unfold completionHandler at h
    split at h
    · rw [Option.some_inj] at h
      subst h
      simp at hs
    · split at h
      · exact absurd h (by simp)
      · split at h
        · rw [Option.some_inj] at h
          subst h
          simp at hs
        · split at h
          · exact absurd h (by simp)
          · rw [Option.some_inj] at h
            subst h
            rfl

/-- A downstream world whose submit is accepted and whose single poll returns
the completed hello status. -/
def helloWorld : hordeWorld :=
  { submit := submitOutcome.accepted { ID := "job-1", Message := "ok" }
    polls := [pollOutcome.status helloStatus] }

/-- The chat request of the spec's worked examples. -/
def chatReqEx : openAIChatRequest :=
  { Model := "m", Messages := [{ Role := "user", Content := "Hi" }] }

/-- The chat handler's result on chatReqEx against helloWorld. -/
def chatResEx : handlerResult :=
  { status := 200
    body := httpBody.jsonChat
      { ID := defaultAPIKey
        Object := "chat.completion"
        Created := 0
        Choices := [{ Index := 0
                      Message := { Role := "assistant", Content := "hello" }
                      FinishReason := "stop" }]
        Usage := { PromptTokens := 5, CompletionTokens := 5, TotalTokens := 10 } }
    contentType := some jsonContentType
    submitPOSTs := 1
    statusGETs := 1 }

/-- The completion handler's result on completionReqA against helloWorld. -/
def completionResEx : handlerResult :=
  { status := 200
    body := httpBody.jsonCompletion
      { ID := defaultAPIKey
        Object := "text.completion"
        Created := 0
        Choices := [{ Text := "hello", Index := 0, Logprobs := none, FinishReason := "stop" }]
        Model := "davinci-codex"
        Usage := { PromptTokens := 0, CompletionTokens := 0, TotalTokens := 0 } }
    contentType := none
    submitPOSTs := 1
    statusGETs := 1 }

theorem handlers_content_type_asymmetry_witness :
    chatCompletionHandler "" (Except.ok chatReqEx) helloWorld defaultAPIKey 0
      = some chatResEx ∧
    chatResEx.status = 200 ∧
    chatResEx.contentType = some jsonContentType ∧
    completionHandler "" (Except.ok completionReqA) helloWorld defaultAPIKey 0
      = some completionResEx ∧
    completionResEx.status = 200 ∧
    completionResEx.contentType = none :=
  ⟨rfl, rfl,
    handlers_content_type_asymmetry.1 "" (Except.ok chatReqEx) helloWorld defaultAPIKey 0
      chatResEx rfl rfl,
    rfl, rfl,
    handlers_content_type_asymmetry.2 "" (Except.ok completionReqA) helloWorld defaultAPIKey 0
      completionResEx rfl rfl⟩

end ChatGPTKoboldProxy
